import Mathlib

/-
Verification development for the brego telemetry server.

Shallow embedding of the reading bus (dispatcher + subscriber registry),
the sink layer (database writer, broadcast client, websocket client), the
WebSocket bridge (ws_server.py) and the SensorDB session layer
(database.py).  Each definition is translated from the named Python
source location; stateful code is modelled by explicit state passing and
raised exceptions by an explicit error component.
-/

namespace Brego

/-- Python exception values raised by the modelled code. -/
inductive PyErr
  | runtimeError (msg : String)
  | valueError (msg : String)
  | indexError
  | nameError (nm : String)
  | attributeError (nm : String)
  | typeError
deriving Repr, DecidableEq

/-! ## Subscriber registry (gpioserver.py, SensorServer)

The registry is the pair of `self.subscribers` (a Python set of queues,
modelled as a list of queue identifiers without a fixed order contract)
and `self.subscriber_names` (a dict from queue to label, modelled as an
association list with unique keys). -/

/-- Python dict assignment d[k] = v: overwrite in place if the key is
present, append otherwise (dict insertion order). -/
def dictInsert (d : List (Nat × String)) (k : Nat) (v : String) : List (Nat × String) :=
  if d.any (fun p => p.1 == k) then d.map (fun p => if p.1 == k then (k, v) else p)
  else d ++ [(k, v)]

/-- Python `del d[k]` for a dict with unique keys (removes the entry). -/
def dictErase (d : List (Nat × String)) (k : Nat) : List (Nat × String) :=
  d.filter (fun p => p.1 ≠ k)

/-- State of the subscriber registry: the subscriber set and label map of
gpioserver.SensorServer (fields initialised at gpioserver.py:65-66). -/
structure Registry where
  subscribers : List Nat
  subscriber_names : List (Nat × String)
deriving Repr, DecidableEq

/-- gpioserver.py:71-74, SensorServer.register_subscriber: if the queue is
not in the subscriber set, add it and record its name; otherwise do
nothing at all. -/
def register_subscriber (r : Registry) (q : Nat) (nm : String) : Registry :=
  if q ∈ r.subscribers then r
  else { subscribers := q :: r.subscribers,
         subscriber_names := dictInsert r.subscriber_names q nm }

/-- gpioserver.py:76-81, SensorServer.unsubscribe: try to remove the queue
from the set and delete its name; any exception is swallowed.  When the
queue is absent, set.remove raises first, so nothing is mutated. -/
def unsubscribe (r : Registry) (q : Nat) : Registry :=
  if q ∈ r.subscribers then
    { subscribers := r.subscribers.erase q,
      subscriber_names := dictErase r.subscriber_names q }
  else r

theorem register_subscriber_of_mem (r : Registry) (q : Nat) (nm : String)
    (h : q ∈ r.subscribers) : register_subscriber r q nm = r := by
  simp [register_subscriber, h]

theorem unsubscribe_of_not_mem (r : Registry) (q : Nat)
    (h : q ∉ r.subscribers) : unsubscribe r q = r := by
  simp [unsubscribe, h]

theorem mem_register_subscriber_self (r : Registry) (q : Nat) (nm : String) :
    q ∈ (register_subscriber r q nm).subscribers := by
  by_cases h : q ∈ r.subscribers <;> simp [register_subscriber, h]

theorem subscribers_nodup_register (r : Registry) (q : Nat) (nm : String)
    (h : r.subscribers.Nodup) : (register_subscriber r q nm).subscribers.Nodup := by
  by_cases hq : q ∈ r.subscribers <;> simp [register_subscriber, hq, h]

theorem not_mem_unsubscribe_self (r : Registry) (q : Nat)
    (h : r.subscribers.Nodup) : q ∉ (unsubscribe r q).subscribers := by
  by_cases hq : q ∈ r.subscribers
  · simp only [unsubscribe, if_pos hq]
    exact h.not_mem_erase
  · simp [unsubscribe, hq]

/-! ## Reading bus dispatcher (gpioserver.py:95-101 and server.py:80-86)

The dispatcher dequeues one item (a batch) at a time from the ingress
queue `self.readings` and, for each queue in a snapshot of the
subscriber set (`list(self.subscribers)`), performs exactly one put of a
reference to that same item.  Batches are opaque to the dispatcher, so
the model is polymorphic in the batch type; subscriber queue contents
are modelled as a map from queue identifier to the list of batches
enqueued so far, oldest first. -/

/-- One `await q.put(reading)` (gpioserver.py:99): appends the batch to
the back of the single queue `q`. -/
def putBatch {α : Type} (qs : Nat → List α) (q : Nat) (b : α) : Nat → List α :=
  fun x => if x = q then qs q ++ [b] else qs x

/-- One iteration of the dispatcher body for one dequeued batch
(gpioserver.py:97-99): the for loop over the snapshot performs one put of
the same batch per snapshot element, in snapshot order. -/
def dispatchBatch {α : Type} (snapshot : List Nat) (b : α) (qs : Nat → List α) :
    Nat → List α :=
  snapshot.foldl (fun acc q => putBatch acc q b) qs

/-- Dispatcher run over a list of ingress batches, in the order they were
dequeued, against a fixed subscriber snapshot. -/
def dispatchAll {α : Type} (snapshot : List Nat) (batches : List α) (qs : Nat → List α) :
    Nat → List α :=
  batches.foldl (fun acc b => dispatchBatch snapshot b acc) qs

theorem dispatchBatch_of_not_mem {α : Type} (snapshot : List Nat) (b : α)
    (qs : Nat → List α) (q : Nat) (h : q ∉ snapshot) :
    dispatchBatch snapshot b qs q = qs q := by
  induction snapshot generalizing qs with
  | nil => rfl
  | cons a l ih =>
      simp only [List.mem_cons, not_or] at h
      simp only [dispatchBatch, List.foldl_cons]
      rw [show (List.foldl (fun acc q => putBatch acc q b) (putBatch qs a b) l) =
            dispatchBatch l b (putBatch qs a b) from rfl]
      rw [ih (putBatch qs a b) h.2]
      simp [putBatch, h.1]

theorem dispatchBatch_of_mem {α : Type} (snapshot : List Nat) (b : α)
    (qs : Nat → List α) (q : Nat) (hnd : snapshot.Nodup) (h : q ∈ snapshot) :
    dispatchBatch snapshot b qs q = qs q ++ [b] := by
  induction snapshot generalizing qs with
  | nil => cases h
  | cons a l ih =>
      simp only [List.nodup_cons] at hnd
      simp only [dispatchBatch, List.foldl_cons]
      rw [show (List.foldl (fun acc q => putBatch acc q b) (putBatch qs a b) l) =
            dispatchBatch l b (putBatch qs a b) from rfl]
      rcases List.mem_cons.mp h with rfl | hl
      · rw [dispatchBatch_of_not_mem l b _ q hnd.1]
        simp [putBatch]
      · have hqa : q ≠ a := fun hqa => hnd.1 (hqa ▸ hl)
        rw [ih (putBatch qs a b) hnd.2 hl]
        simp [putBatch, hqa]

theorem dispatchAll_of_mem {α : Type} (snapshot : List Nat) (batches : List α)
    (qs : Nat → List α) (q : Nat) (hnd : snapshot.Nodup) (h : q ∈ snapshot) :
    dispatchAll snapshot batches qs q = qs q ++ batches := by
  induction batches generalizing qs with
  | nil => simp [dispatchAll]
  | cons b bs ih =>
      simp only [dispatchAll, List.foldl_cons]
      rw [show (List.foldl (fun acc b => dispatchBatch snapshot b acc)
            (dispatchBatch snapshot b qs) bs) =
            dispatchAll snapshot bs (dispatchBatch snapshot b qs) from rfl]
      rw [ih (dispatchBatch snapshot b qs)]
      rw [dispatchBatch_of_mem snapshot b qs q hnd h, List.append_assoc]
      rfl

/-- C2: for each batch dequeued by the dispatcher and each of the N
subscriber queues in the snapshot taken at the start of the cycle,
exactly one enqueue of the very same batch is performed (the queue grows
by exactly that one batch reference, so its internal order is untouched);
queues outside the snapshot receive nothing; and across cycles each
subscriber queue receives the batches in ingress-dequeue order. -/
theorem c2_dispatcher_fanout {α : Type} (snapshot : List Nat) (b : α)
    (qs : Nat → List α) (hnd : snapshot.Nodup) :
    (∀ q ∈ snapshot, dispatchBatch snapshot b qs q = qs q ++ [b]) ∧
    (∀ q, q ∉ snapshot → dispatchBatch snapshot b qs q = qs q) ∧
    (∀ q ∈ snapshot, ∀ batches : List α, dispatchAll snapshot batches qs q = qs q ++ batches) := by
  refine ⟨fun q hq => dispatchBatch_of_mem snapshot b qs q hnd hq,
          fun q hq => dispatchBatch_of_not_mem snapshot b qs q hq,
          fun q hq batches => dispatchAll_of_mem snapshot batches qs q hnd hq⟩

/-- Witness for C2 at a concrete snapshot of two subscribers. -/
theorem c2_dispatcher_fanout_witness :
    (([1, 2] : List Nat).Nodup) ∧
    ((∀ q ∈ ([1, 2] : List Nat),
        dispatchBatch [1, 2] (37 : Nat) (fun _ => []) q = (fun _ => ([] : List Nat)) q ++ [37]) ∧
     (∀ q, q ∉ ([1, 2] : List Nat) →
        dispatchBatch [1, 2] (37 : Nat) (fun _ => []) q = (fun _ => ([] : List Nat)) q) ∧
     (∀ q ∈ ([1, 2] : List Nat), ∀ batches : List Nat,
        dispatchAll [1, 2] batches (fun _ => []) q = (fun _ => ([] : List Nat)) q ++ batches)) :=
  ⟨by decide, c2_dispatcher_fanout [1, 2] 37 (fun _ => []) (by decide)⟩

/-! ## Sink lifecycle and broadcast wire format

gpioserver.py sinks (database_writer 112-126, broadcast_client 128-148,
websocket_client 160-178) register a fresh queue on entry and unsubscribe
it in a finally block, so the unsubscribe runs on every exit path.  The
server.py historical variants (database_writer 88-100, broadcast_client
102-119, websocket_client 129-145) add the queue to the raw subscriber
set and have no finally block at all.  Data items travelling to the
broadcast sink are (device, data) pairs; the data dict is represented
here by its serialized JSON text. -/

/-- Serialization of one record, json.dumps({'device': device, 'data':
data}) as built at gpioserver.py:139-140 (json.dumps default separators:
a space after each colon and comma). -/
def json_record (device data : String) : String :=
  "\x7b\"device\": \"" ++ device ++ "\", \"data\": " ++ data ++ "\x7d"

/-- One broadcast write for one record: the serialized JSON object plus
the trailing newline appended at gpioserver.py:140. -/
def record_line (device data : String) : String :=
  json_record device data ++ "\n"

/-- Bytes written by the CancelledError branch at gpioserver.py:143:
json.dumps({'msg': 'END_STREAM'}) with no newline appended. -/
def END_STREAM_write : String := "\x7b\"msg\": \"END_STREAM\"\x7d"

/-- Whether a wire write is a complete line of the newline-delimited
format, i.e. its last character is the line feed. -/
def endsWithNewline (s : String) : Bool :=
  s.data.getLast? == some '\n'

theorem endsWithNewline_append_newline (s : String) :
    endsWithNewline (s ++ "\n") = true := by
  simp [endsWithNewline, String.data_append]

/-- Exit paths of gpioserver.SensorServer.database_writer: cancellation,
or an exception escaping sensor_db.insert_readings. -/
inductive DbwExit | cancelled | insertError
deriving Repr, DecidableEq

/-- Exit paths of gpioserver.SensorServer.broadcast_client: cancellation,
a write exceeding the 60 second timeout (curio.TaskTimeout), or a broken
pipe. -/
inductive BExit | cancelled | writeTimeout | brokenPipe
deriving Repr, DecidableEq

/-- Exit paths of gpioserver.SensorServer.websocket_client: the sentinel
None read from in_q (break, normal return), or cancellation. -/
inductive WscExit | sentinel | cancelled
deriving Repr, DecidableEq

/-- Registry effect of the register_subscriber call at entry of
gpioserver.SensorServer.broadcast_client (gpioserver.py:133-134). -/
def gpio_broadcast_client_enter (r : Registry) (q : Nat) (cname : String) : Registry :=
  register_subscriber r q ("broadcast_client:" ++ cname)

/-- Registry effect of the finally block of broadcast_client
(gpioserver.py:147-148). -/
def gpio_broadcast_client_exit (r : Registry) (q : Nat) : Registry :=
  unsubscribe r q

/-- Registry state when a gpioserver broadcast_client task finishes:
entry registration, then whichever exit path ran, then the finally block
(which runs on every path). -/
def gpio_broadcast_client_final_registry (r : Registry) (q : Nat) (cname : String)
    (e : BExit) : Registry :=
  let r1 := gpio_broadcast_client_enter r q cname
  match e with
  | BExit.cancelled => gpio_broadcast_client_exit r1 q
  | BExit.writeTimeout => gpio_broadcast_client_exit r1 q
  | BExit.brokenPipe => gpio_broadcast_client_exit r1 q

/-- Registry state when a gpioserver database_writer task finishes
(register at gpioserver.py:114-115, unsubscribe in the finally at
gpioserver.py:125-126). -/
def gpio_database_writer_final_registry (r : Registry) (q : Nat) (e : DbwExit) : Registry :=
  let r1 := register_subscriber r q "database_writer"
  match e with
  | DbwExit.cancelled => unsubscribe r1 q
  | DbwExit.insertError => unsubscribe r1 q

/-- Registry state when a gpioserver websocket_client task finishes
(register at gpioserver.py:161-162, unsubscribe in the finally at
gpioserver.py:177-178); the label embeds hash(in_q), modelled as a
number. -/
def gpio_websocket_client_final_registry (r : Registry) (q hq : Nat) (e : WscExit) : Registry :=
  let r1 := register_subscriber r q ("websocket_client:" ++ toString hq)
  match e with
  | WscExit.sentinel => unsubscribe r1 q
  | WscExit.cancelled => unsubscribe r1 q

/-- Wire writes of one gpioserver broadcast_client run that delivers the
given (device, data) items and then terminates by the given exit path:
one record line per item (gpioserver.py:138-141), plus the END_STREAM
object, written only on the CancelledError path (gpioserver.py:142-144). -/
def gpio_broadcast_client_writes (items : List (String × String)) (e : BExit) :
    List String :=
  items.map (fun p => record_line p.1 p.2) ++
    (match e with
     | BExit.cancelled => [END_STREAM_write]
     | BExit.writeTimeout => []
     | BExit.brokenPipe => [])

/-- Python set.add (server.py:91, 107, 131): insert if absent. -/
def serverpy_subscribers_add (subs : List Nat) (q : Nat) : List Nat :=
  if q ∈ subs then subs else q :: subs

/-- Exit paths of server.SensorServer.broadcast_client: cancellation
(writes the sentinel and re-raises) or broken pipe (prints); there is no
finally block, so neither path removes the queue from the subscriber
set (server.py:102-119). -/
inductive SrvBExit | cancelled | brokenPipe
deriving Repr, DecidableEq

/-- Subscriber set when a server.py broadcast_client task finishes: the
entry add at server.py:107 is never undone on any exit path. -/
def serverpy_broadcast_client_final_subscribers (subs : List Nat) (q : Nat)
    (e : SrvBExit) : List Nat :=
  let subs1 := serverpy_subscribers_add subs q
  match e with
  | SrvBExit.cancelled => subs1
  | SrvBExit.brokenPipe => subs1

/-- Subscriber set when a server.py database_writer task finishes: the
entry add at server.py:91 is never undone (the only handler,
CancelledError, re-raises with no cleanup; server.py:88-100). -/
def serverpy_database_writer_final_subscribers (subs : List Nat) (q : Nat) : List Nat :=
  serverpy_subscribers_add subs q

/-- Argument value passed to a curio stream write. -/
inductive PyVal
  | pybytes (s : String)
  | pydict (fields : List (String × String))
deriving Repr, DecidableEq

/-- curio FileStream.write accepts bytes; passing any other object (such
as a dict) raises TypeError before anything reaches the wire. -/
def stream_write (arg : PyVal) : Except PyErr String :=
  match arg with
  | PyVal.pybytes s => Except.ok s
  | PyVal.pydict _ => Except.error PyErr.typeError

/-- The CancelledError branch of server.SensorServer.broadcast_client
(server.py:115-117) passes the raw dict literal, not serialized bytes,
to stream.write. -/
def serverpy_end_stream_write : Except PyErr String :=
  stream_write (PyVal.pydict [("msg", "END_STREAM")])

theorem not_mem_unsubscribe_register (r : Registry) (q : Nat) (nm : String)
    (hnd : r.subscribers.Nodup) :
    q ∉ (unsubscribe (register_subscriber r q nm) q).subscribers :=
  not_mem_unsubscribe_self (register_subscriber r q nm) q
    (subscribers_nodup_register r q nm hnd)

/-- C3 as amended: the gpioserver-variant sinks unregister their queue on
every exit path, while the server.py variants never do. -/
theorem c3_sinks_unregister_amended (r : Registry) (q hq : Nat) (cname : String)
    (e1 : DbwExit) (e2 : BExit) (e3 : WscExit) (hnd : r.subscribers.Nodup) :
    q ∉ (gpio_database_writer_final_registry r q e1).subscribers ∧
    q ∉ (gpio_broadcast_client_final_registry r q cname e2).subscribers ∧
    q ∉ (gpio_websocket_client_final_registry r q hq e3).subscribers := by
  refine ⟨?_, ?_, ?_⟩
  · cases e1 <;> exact not_mem_unsubscribe_register r q _ hnd
  · cases e2 <;> exact not_mem_unsubscribe_register r q _ hnd
  · cases e3 <;> exact not_mem_unsubscribe_register r q _ hnd

/-- Witness for the amended C3 at a concrete registry state. -/
theorem c3_sinks_unregister_amended_witness :
    ((⟨[5], [(5, "x")]⟩ : Registry).subscribers.Nodup) ∧
    (0 ∉ (gpio_database_writer_final_registry ⟨[5], [(5, "x")]⟩ 0 DbwExit.cancelled).subscribers ∧
     0 ∉ (gpio_broadcast_client_final_registry ⟨[5], [(5, "x")]⟩ 0 "c" BExit.writeTimeout).subscribers ∧
     0 ∉ (gpio_websocket_client_final_registry ⟨[5], [(5, "x")]⟩ 0 7 WscExit.sentinel).subscribers) :=
  ⟨by decide,
   c3_sinks_unregister_amended ⟨[5], [(5, "x")]⟩ 0 7 "c"
     DbwExit.cancelled BExit.writeTimeout WscExit.sentinel (by decide)⟩

/-- Counterexample to C3 as stated: a server.py broadcast_client (or
database_writer) task that has finished — here after cancellation —
leaves its queue registered in the subscriber set. -/
theorem c3_serverpy_keeps_subscriber :
    0 ∈ serverpy_broadcast_client_final_subscribers [] 0 SrvBExit.cancelled ∧
    0 ∈ serverpy_database_writer_final_subscribers [] 0 := by
  decide

/-- Counterexample to C6 as stated: on cancellation the last write of a
gpioserver broadcast_client run is the END_STREAM object with no
trailing newline, so it is not a complete line of the newline-delimited
format that every ordinary record uses; the server.py variant does not
even produce bytes (it passes a dict to stream.write, a TypeError). -/
theorem c6_end_stream_not_line :
    (gpio_broadcast_client_writes [("dev", "\x7b\"time\": 1\x7d")] BExit.cancelled).getLast? =
        some END_STREAM_write ∧
    endsWithNewline END_STREAM_write = false ∧
    endsWithNewline (record_line "dev" "\x7b\"time\": 1\x7d") = true ∧
    serverpy_end_stream_write = Except.error PyErr.typeError :=
  ⟨rfl, by decide, by decide, rfl⟩

/-- C6 as amended: on cancellation the gpioserver handler does write the
END_STREAM marker as its final write, but as a bare JSON object without
the trailing newline that terminates every ordinary record line, so it
is not in the same newline-delimited wire format; the server.py variant
instead passes an unserialized dict to the stream write, which raises
TypeError and sends nothing. -/
theorem c6_end_stream_format_amended (items : List (String × String)) :
    (gpio_broadcast_client_writes items BExit.cancelled).getLast? = some END_STREAM_write ∧
    endsWithNewline END_STREAM_write = false ∧
    (∀ d s : String, endsWithNewline (record_line d s) = true) ∧
    serverpy_end_stream_write = Except.error PyErr.typeError := by
  refine ⟨?_, by decide, fun d s => endsWithNewline_append_newline (json_record d s), rfl⟩
  simp [gpio_broadcast_client_writes]

theorem mem_register_subscriber_of_mem (r : Registry) (x q : Nat) (nm : String)
    (hx : x ∈ r.subscribers) : x ∈ (register_subscriber r q nm).subscribers := by
  by_cases hq : q ∈ r.subscribers <;> simp [register_subscriber, hq, hx]

theorem subscribers_nodup_unsubscribe (r : Registry) (q : Nat)
    (h : r.subscribers.Nodup) : (unsubscribe r q).subscribers.Nodup := by
  by_cases hq : q ∈ r.subscribers
  · simp only [unsubscribe, if_pos hq]
    exact h.erase q
  · simpa [unsubscribe, hq] using h

theorem mem_unsubscribe_of_ne (r : Registry) (x q : Nat) (hxq : x ≠ q)
    (hx : x ∈ r.subscribers) : x ∈ (unsubscribe r q).subscribers := by
  by_cases hq : q ∈ r.subscribers
  · simp only [unsubscribe, if_pos hq]
    exact (List.mem_erase_of_ne hxq).mpr hx
  · simpa [unsubscribe, hq] using hx

/-- Registry state after two broadcast_client handlers register queues q1
and q2, and then the first handler's write exceeds the 60 second timeout
(or breaks the pipe, or the task is cancelled), so its task finishes
through its finally block while the second handler keeps running. -/
def c8_scenario_registry (r : Registry) (q1 q2 : Nat) (c1n c2n : String) (e : BExit) :
    Registry :=
  let r2 := gpio_broadcast_client_enter (gpio_broadcast_client_enter r q1 c1n) q2 c2n
  match e with
  | BExit.cancelled => gpio_broadcast_client_exit r2 q1
  | BExit.writeTimeout => gpio_broadcast_client_exit r2 q1
  | BExit.brokenPipe => gpio_broadcast_client_exit r2 q1

/-- C8: when one broadcast connection times out on a write (or breaks its
pipe), only that connection's queue leaves the registry: every other
registered queue stays, and in particular the second connection's queue
keeps receiving every subsequent batch, in order, from the dispatcher. -/
theorem c8_timeout_isolation {α : Type} (r : Registry) (q1 q2 : Nat) (c1n c2n : String)
    (e : BExit) (b : α) (qs : Nat → List α) (batches : List α)
    (hnd : r.subscribers.Nodup) (hne : q1 ≠ q2) :
    q1 ∉ (c8_scenario_registry r q1 q2 c1n c2n e).subscribers ∧
    q2 ∈ (c8_scenario_registry r q1 q2 c1n c2n e).subscribers ∧
    (∀ x ∈ (gpio_broadcast_client_enter (gpio_broadcast_client_enter r q1 c1n) q2 c2n).subscribers,
        x ≠ q1 → x ∈ (c8_scenario_registry r q1 q2 c1n c2n e).subscribers) ∧
    dispatchBatch (c8_scenario_registry r q1 q2 c1n c2n e).subscribers b qs q2 = qs q2 ++ [b] ∧
    dispatchAll (c8_scenario_registry r q1 q2 c1n c2n e).subscribers batches qs q2 =
      qs q2 ++ batches := by
  have hsc : c8_scenario_registry r q1 q2 c1n c2n e =
      unsubscribe (gpio_broadcast_client_enter (gpio_broadcast_client_enter r q1 c1n) q2 c2n) q1 := by
    cases e <;> rfl
  have hnd2 : (gpio_broadcast_client_enter (gpio_broadcast_client_enter r q1 c1n) q2 c2n).subscribers.Nodup :=
    subscribers_nodup_register _ q2 _ (subscribers_nodup_register r q1 _ hnd)
  have hq2 : q2 ∈ (gpio_broadcast_client_enter (gpio_broadcast_client_enter r q1 c1n) q2 c2n).subscribers :=
    mem_register_subscriber_self _ q2 _
  have hq2' : q2 ∈ (c8_scenario_registry r q1 q2 c1n c2n e).subscribers := by
    rw [hsc]
    exact mem_unsubscribe_of_ne _ q2 q1 (Ne.symm hne) hq2
  have hnd3 : (c8_scenario_registry r q1 q2 c1n c2n e).subscribers.Nodup := by
    rw [hsc]
    exact subscribers_nodup_unsubscribe _ q1 hnd2
  refine ⟨?_, hq2', ?_, ?_, ?_⟩
  · rw [hsc]
    exact not_mem_unsubscribe_self _ q1 hnd2
  · intro x hx hxq1
    rw [hsc]
    exact mem_unsubscribe_of_ne _ x q1 hxq1 hx
  · exact dispatchBatch_of_mem _ b qs q2 hnd3 hq2'
  · exact dispatchAll_of_mem _ batches qs q2 hnd3 hq2'

/-- Witness for C8 at a concrete two-connection scenario. -/
theorem c8_timeout_isolation_witness :
    (((⟨[], []⟩ : Registry).subscribers.Nodup) ∧ (1 : Nat) ≠ 2) ∧
    (1 ∉ (c8_scenario_registry ⟨[], []⟩ 1 2 "a" "b" BExit.writeTimeout).subscribers ∧
     2 ∈ (c8_scenario_registry ⟨[], []⟩ 1 2 "a" "b" BExit.writeTimeout).subscribers ∧
     (∀ x ∈ (gpio_broadcast_client_enter (gpio_broadcast_client_enter ⟨[], []⟩ 1 "a") 2 "b").subscribers,
        x ≠ 1 → x ∈ (c8_scenario_registry ⟨[], []⟩ 1 2 "a" "b" BExit.writeTimeout).subscribers) ∧
     dispatchBatch (c8_scenario_registry ⟨[], []⟩ 1 2 "a" "b" BExit.writeTimeout).subscribers
        (37 : Nat) (fun _ => []) 2 = (fun _ => ([] : List Nat)) 2 ++ [37] ∧
     dispatchAll (c8_scenario_registry ⟨[], []⟩ 1 2 "a" "b" BExit.writeTimeout).subscribers
        [4, 5] (fun _ => []) 2 = (fun _ => ([] : List Nat)) 2 ++ [4, 5]) :=
  ⟨⟨by decide, by decide⟩,
   c8_timeout_isolation ⟨[], []⟩ 1 2 "a" "b" BExit.writeTimeout 37 (fun _ => []) [4, 5]
     (by decide) (by decide)⟩

/-! ## WebSocket bridge (ws_server.py)

ws_server.py imports, from wsproto.events, exactly AcceptConnection,
CloseConnection, Request, Message, TextMessage and BytesMessage
(ws_server.py:24-25).  The decoder events of wsconn.events() are
modelled as an inductive type; bytes produced by wsconn.send are
modelled as abstract frames. -/

/-- Events yielded by the wsproto decoder in process_incoming. -/
inductive WsEvent
  | textMessage (data : String)
  | bytesMessage (data : String)
  | request
  | closeConnection
  | ping (payload : String)
  | unknown
deriving Repr, DecidableEq

/-- Frames whose encoded bytes the bridge hands to client.sendall. -/
inductive Frame
  | accept
  | dataFrame (payload : String)
deriving Repr, DecidableEq

/-- ws_server.py:44-64, the event loop of process_incoming.  Text and
bytes messages are put on in_q; a Request appends the accept response to
rsp; a CloseConnection puts the sentinel None on in_q and sets closed.
Any other event reaches the line `elif isinstance(event, Ping)`
(ws_server.py:60), and since the name Ping is never imported this raises
NameError before the else branch can run. -/
def process_incoming_events (events : List WsEvent) (closed : Bool) (rsp : List Frame)
    (inPuts : List (Option String)) :
    Except PyErr (Bool × List Frame × List (Option String)) :=
  match events with
  | [] => Except.ok (closed, rsp, inPuts)
  | WsEvent.textMessage d :: rest =>
      process_incoming_events rest closed rsp (inPuts ++ [some d])
  | WsEvent.bytesMessage d :: rest =>
      process_incoming_events rest closed rsp (inPuts ++ [some d])
  | WsEvent.request :: rest =>
      process_incoming_events rest closed (rsp ++ [Frame.accept]) inPuts
  | WsEvent.closeConnection :: rest =>
      process_incoming_events rest true rsp (inPuts ++ [Option.none])
  | WsEvent.ping _ :: _ => Except.error (PyErr.nameError "Ping")
  | WsEvent.unknown :: _ => Except.error (PyErr.nameError "Ping")

/-- ws_server.py:28-64, process_incoming: fold the decoded events with
closed initially False, rsp initially empty and nothing yet put on in_q;
returns the closed flag, the response bytes and the in_q puts made. -/
def process_incoming (events : List WsEvent) :
    Except PyErr (Bool × List Frame × List (Option String)) :=
  process_incoming_events events false [] []

/-- Observable state of one ws_adapter connection: the loop flag and the
frames written to the client socket so far. -/
structure BridgeState where
  closed : Bool
  socketWrites : List Frame
deriving Repr, DecidableEq

/-- Bridge state at entry of the ws_adapter loop (ws_server.py:86). -/
def bridgeInit : BridgeState := ⟨false, []⟩

/-- ws_server.py:109-120, the outbound-queue branch of the ws_adapter
loop.  A payload is encoded with wsconn.send(Message(..)) and written
with client.sendall.  The sentinel None instead executes wsconn.close();
under the modern wsproto API named in the module docstring, WSConnection
has no close attribute, so this raises AttributeError — and in either
case the branch passes no close-frame bytes to client.sendall, so
nothing more reaches the socket. -/
def ws_adapter_outbound_step (s : BridgeState) (msg : Option String) :
    Except PyErr BridgeState :=
  match msg with
  | Option.none => Except.error (PyErr.attributeError "close")
  | some m => Except.ok { s with socketWrites := s.socketWrites ++ [Frame.dataFrame m] }

/-- C1: divergence of the close paths of ws_adapter.  Pushing the
sentinel None onto the outbound queue while the connection is open does
not write any close frame to the socket: the branch hits the nonexistent
wsconn.close() (AttributeError under the modern wsproto API) and in no
case passes close bytes to client.sendall.  The converse half of the
claim does hold: a close frame from the peer results in exactly one
sentinel None pushed onto the inbound queue with the closed flag set, so
the loop terminates. -/
theorem c1_ws_close_divergence :
    ws_adapter_outbound_step bridgeInit Option.none =
        Except.error (PyErr.attributeError "close") ∧
    bridgeInit.socketWrites = [] ∧
    process_incoming [WsEvent.closeConnection] = Except.ok (true, [], [Option.none]) :=
  ⟨rfl, rfl, rfl⟩

/-- C5: divergence of the ping branch of process_incoming.  A ping event
reaches the line `elif isinstance(event, Ping)` where Ping is an unbound
name (ws_server.py:24-25 import only AcceptConnection, CloseConnection,
Request, Message, TextMessage and BytesMessage), so the branch raises
NameError instead of queueing the pong response. -/
theorem c5_ping_raises_nameerror :
    process_incoming [WsEvent.ping "p"] = Except.error (PyErr.nameError "Ping") :=
  rfl

/-! ## Connection setup ordering (ws_server.py serve_ws + gpioserver websocket_client)

serve_ws.run_ws (ws_server.py:159-165) spawns ws_adapter and then awaits
the handler in the same task.  Under curio cooperative scheduling the
spawned adapter first runs only when the current task suspends; the
handler SensorServer.websocket_client (gpioserver.py:160-162) creates
its queue and calls register_subscriber before its first await, so the
registration happens before the adapter's client.recv for the opening
handshake can even start, whatever the handshake outcome. -/

/-- Bus-visible and handshake actions of one accepted connection, in
execution order. -/
inductive WsAction
  | registerSubscriber (q : Nat)
  | adapterRecvHandshake
  | handshakeAccepted
  | handshakeFailed
deriving Repr, DecidableEq

/-- Ordered action trace of serve_ws.run_ws combined with the
websocket_client handler, parametrized by the handshake outcome. -/
def run_ws_trace (q : Nat) (handshakeOk : Bool) : List WsAction :=
  WsAction.registerSubscriber q :: WsAction.adapterRecvHandshake ::
    (if handshakeOk then [WsAction.handshakeAccepted] else [WsAction.handshakeFailed])

/-- Counterexample to C4 as stated: a connection whose opening handshake
fails still has its subscriber queue registered — indeed the
registration is the very first action of the trace, before the
handshake bytes are even received. -/
theorem c4_failed_handshake_still_registers :
    (run_ws_trace 0 false).head? = some (WsAction.registerSubscriber 0) ∧
    WsAction.handshakeFailed ∈ run_ws_trace 0 false := by
  decide

/-- C4 as amended: the handler registers its subscriber queue
unconditionally, before the handshake is processed, whatever the
handshake outcome; a failed handshake therefore does not prevent the
bus-visible registration (the queue is only removed later by the
handler's own cleanup). -/
theorem c4_registration_precedes_handshake (q : Nat) (handshakeOk : Bool) :
    (run_ws_trace q handshakeOk).head? = some (WsAction.registerSubscriber q) ∧
    WsAction.registerSubscriber q ∈ run_ws_trace q handshakeOk := by
  cases handshakeOk <;> simp [run_ws_trace]

/-! ## SensorDB session layer (database.py)

SensorDB keeps a sessions table, a known-devices registry and one
reading table per device.  A reading is a Python dict, modelled as an
association list from string keys to numbers.  Raising code is modelled
by returning the state as of the raise together with the exception, so
an error result literally exhibits the unchanged database. -/

/-- A Python reading dict (keys such as time, value, session_id). -/
abbrev PyReading := List (String × Int)

/-- Python `k in d` for a reading dict. -/
def hasKey (d : PyReading) (k : String) : Bool :=
  d.any (fun p => p.1 == k)

/-- Python `d[k] = v` for a reading dict: overwrite if present, append
otherwise. -/
def setKey (d : PyReading) (k : String) (v : Int) : PyReading :=
  if hasKey d k then d.map (fun p => if p.1 == k then (k, v) else p)
  else d ++ [(k, v)]

/-- One row of the sessions table (database.py:25, 51): primary key,
start timestamp, and the end timestamp, null until the session is
closed.  The end column is named stop here because end is reserved. -/
structure SessionRow where
  session_id : Nat
  start : Int
  stop : Option Int
deriving Repr, DecidableEq

/-- State of one SensorDB instance: the sessions table with its
auto-increment primary key counter, the known device names
(database.py:27-29), the per-device reading tables, and self.session,
the active session id (database.py:32). -/
structure SensorDB where
  sessions_table : List SessionRow
  next_session_id : Nat
  known_devices : List String
  tables : List (String × List PyReading)
  session : Option Nat
deriving Repr, DecidableEq

/-- database.py:54-58, SensorDB.end_session: if no session is active do
nothing; otherwise stamp the end timestamp on the active session row
and clear self.session. -/
def end_session (db : SensorDB) (t : Int) : SensorDB :=
  match db.session with
  | Option.none => db
  | some sid =>
      { db with
        sessions_table := db.sessions_table.map
          (fun row => if row.session_id = sid then { row with stop := some t } else row),
        session := Option.none }

/-- database.py:47-52, SensorDB.start_session: if a session is active,
close it first via end_session; then insert a fresh sessions row with a
null end timestamp (dataset returns the new auto-increment primary key)
and make it the active session. -/
def start_session (db : SensorDB) (t : Int) : SensorDB :=
  let db1 := if db.session.isSome then end_session db t else db
  { db1 with
    sessions_table := db1.sessions_table ++ [⟨db1.next_session_id, t, Option.none⟩],
    next_session_id := db1.next_session_id + 1,
    session := some db1.next_session_id }

/-- database.py:78, self.db.create_table(device_name, ...): create the
device table if it does not exist yet. -/
def create_table (db : SensorDB) (device_name : String) : SensorDB :=
  if db.tables.any (fun p => p.1 == device_name) then db
  else { db with tables := db.tables ++ [(device_name, [])] }

/-- database.py:82, table.insert_many(readings, ...): append the rows to
the device table. -/
def insert_many (db : SensorDB) (device_name : String) (rows : List PyReading) : SensorDB :=
  { db with
    tables := db.tables.map
      (fun p => if p.1 == device_name then (p.1, p.2 ++ rows) else p) }

/-- database.py:70-82, SensorDB.insert_readings, with the source's check
order:  _check_session raises RuntimeError when self.session is None
(database.py:43-45); then `'time' not in readings[0]` raises IndexError
on an empty batch and ValueError when the first reading has no time
field; then an unknown device name raises ValueError; only after all
checks does it create the device table, tag every reading with the
active session id, and insert them all.  Errors carry the state as of
the raise, which is the untouched input state. -/
def insert_readings (db : SensorDB) (device_name : String) (readings : List PyReading) :
    SensorDB × Option PyErr :=
  match db.session with
  | Option.none => (db, some (PyErr.runtimeError "No active session."))
  | some sid =>
    match readings with
    | [] => (db, some PyErr.indexError)
    | r0 :: _ =>
      if hasKey r0 "time" = false then
        (db, some (PyErr.valueError "Sensor readings must have `time` field."))
      else if db.known_devices.contains device_name = false then
        (db, some (PyErr.valueError ("Device " ++ device_name ++ " not registered.")))
      else
        (insert_many (create_table db device_name) device_name
          (readings.map (fun item => setKey item "session_id" (Int.ofNat sid))),
         Option.none)

/-- C7: with no active session, insert_readings raises the no-active-
session error and leaves the database untouched; and start_session while
a session is active first stamps the end timestamp of the active
session's row, then appends the new session row (still open) as the last
row and makes it the only active session, so at most one session is
active at any time. -/
theorem c7_session_lifecycle (db : SensorDB) (d : String) (rs : List PyReading)
    (t : Int) (s : Nat)
    (hrow : ∃ row ∈ db.sessions_table, row.session_id = s)
    (hopen : ∀ row ∈ db.sessions_table, row.stop = Option.none → row.session_id = s) :
    (db.session = Option.none →
       insert_readings db d rs = (db, some (PyErr.runtimeError "No active session."))) ∧
    (db.session = some s →
       (start_session db t).session = some db.next_session_id ∧
       (start_session db t).sessions_table.getLast? =
         some ⟨db.next_session_id, t, Option.none⟩ ∧
       (∃ row ∈ (start_session db t).sessions_table,
          row.session_id = s ∧ row.stop = some t) ∧
       (∀ row ∈ (start_session db t).sessions_table, row.stop = Option.none →
          row.session_id = db.next_session_id)) := by
  constructor
  · intro h
    simp [insert_readings, h]
  · intro hs
    have hsome : db.session.isSome = true := by rw [hs]; rfl
    have hdb1 : (if db.session.isSome then end_session db t else db) = end_session db t := by
      rw [hsome]; rfl
    have hend : end_session db t =
        { db with
          sessions_table := db.sessions_table.map
            (fun row => if row.session_id = s then { row with stop := some t } else row),
          session := Option.none } := by
      rw [end_session, hs]
    refine ⟨?_, ?_, ?_, ?_⟩
    · rw [start_session, hdb1, hend]
    · rw [start_session, hdb1, hend]
      exact List.getLast?_concat _
    · obtain ⟨row, hmem, hid⟩ := hrow
      refine ⟨{ row with stop := some t }, ?_, hid, rfl⟩
      rw [start_session, hdb1, hend]
      refine List.mem_append_left _ ?_
      have : (fun row => if row.session_id = s then { row with stop := some t } else row) row =
          { row with stop := some t } := by
        simp [hid]
      exact this ▸ List.mem_map_of_mem _ hmem
    · intro row hmem hstop
      rw [start_session, hdb1, hend] at hmem
      simp only at hmem
      rcases List.mem_append.mp hmem with hl | hr
      · obtain ⟨row0, hmem0, heq⟩ := List.mem_map.mp hl
        by_cases h0 : row0.session_id = s
        · rw [if_pos h0] at heq
          rw [← heq] at hstop
          cases hstop
        · rw [if_neg h0] at heq
          rw [← heq] at hstop
          exact absurd (hopen row0 hmem0 hstop) h0
      · rw [List.mem_singleton.mp hr]

/-- Witness for C7 at a concrete database with one open session. -/
theorem c7_session_lifecycle_witness :
    ((∃ row ∈ (⟨[⟨0, 0, Option.none⟩], 1, ["dev"], [("dev", [])], some 0⟩ :
        SensorDB).sessions_table, row.session_id = 0) ∧
     (∀ row ∈ (⟨[⟨0, 0, Option.none⟩], 1, ["dev"], [("dev", [])], some 0⟩ :
        SensorDB).sessions_table, row.stop = Option.none → row.session_id = 0)) ∧
    (((⟨[⟨0, 0, Option.none⟩], 1, ["dev"], [("dev", [])], some 0⟩ : SensorDB).session =
          Option.none →
        insert_readings ⟨[⟨0, 0, Option.none⟩], 1, ["dev"], [("dev", [])], some 0⟩ "dev" [] =
          (⟨[⟨0, 0, Option.none⟩], 1, ["dev"], [("dev", [])], some 0⟩,
           some (PyErr.runtimeError "No active session."))) ∧
     ((⟨[⟨0, 0, Option.none⟩], 1, ["dev"], [("dev", [])], some 0⟩ : SensorDB).session = some 0 →
        (start_session ⟨[⟨0, 0, Option.none⟩], 1, ["dev"], [("dev", [])], some 0⟩ 5).session =
          some 1 ∧
        (start_session ⟨[⟨0, 0, Option.none⟩], 1, ["dev"], [("dev", [])], some 0⟩
            5).sessions_table.getLast? = some ⟨1, 5, Option.none⟩ ∧
        (∃ row ∈ (start_session ⟨[⟨0, 0, Option.none⟩], 1, ["dev"], [("dev", [])], some 0⟩
            5).sessions_table, row.session_id = 0 ∧ row.stop = some 5) ∧
        (∀ row ∈ (start_session ⟨[⟨0, 0, Option.none⟩], 1, ["dev"], [("dev", [])], some 0⟩
            5).sessions_table, row.stop = Option.none → row.session_id = 1))) :=
  ⟨⟨by decide, by decide⟩,
   c7_session_lifecycle ⟨[⟨0, 0, Option.none⟩], 1, ["dev"], [("dev", [])], some 0⟩
     "dev" [] 5 0 (by decide) (by decide)⟩

/-- C10: with an active session, insert_readings raises IndexError on an
empty batch, ValueError when the first reading lacks a time field, and
ValueError when the device is unknown — each before any row is
inserted, the error result carrying the unchanged database — while a
missing time field in any reading after the first is not detected: the
whole batch is tagged with the session id and inserted. -/
theorem c10_insert_readings_guards (db : SensorDB) (d : String) (r0 : PyReading)
    (rest : List PyReading) (s : Nat) (hs : db.session = some s) :
    insert_readings db d [] = (db, some PyErr.indexError) ∧
    (hasKey r0 "time" = false →
       insert_readings db d (r0 :: rest) =
         (db, some (PyErr.valueError "Sensor readings must have `time` field."))) ∧
    (hasKey r0 "time" = true → db.known_devices.contains d = false →
       insert_readings db d (r0 :: rest) =
         (db, some (PyErr.valueError ("Device " ++ d ++ " not registered.")))) ∧
    (hasKey r0 "time" = true → db.known_devices.contains d = true →
       insert_readings db d (r0 :: rest) =
         (insert_many (create_table db d) d
            ((r0 :: rest).map (fun item => setKey item "session_id" (Int.ofNat s))),
          Option.none)) := by
  refine ⟨?_, ?_, ?_, ?_⟩
  · simp [insert_readings, hs]
  · intro h
    simp [insert_readings, hs, h]
  · intro h1 h2
    have h2' : d ∉ db.known_devices := by simpa using h2
    simp [insert_readings, hs, h1, h2, h2']
  · intro h1 h2
    have h2' : d ∈ db.known_devices := by simpa using h2
    simp [insert_readings, hs, h1, h2, h2']

/-- Witness for C10: a concrete database with an active session and a
batch whose second reading lacks the time field; the batch is inserted
anyway, and the guard cases fire as stated. -/
theorem c10_insert_readings_guards_witness :
    ((⟨[⟨0, 0, Option.none⟩], 1, ["dev"], [("dev", [])], some 0⟩ : SensorDB).session = some 0) ∧
    (insert_readings ⟨[⟨0, 0, Option.none⟩], 1, ["dev"], [("dev", [])], some 0⟩ "dev" [] =
       (⟨[⟨0, 0, Option.none⟩], 1, ["dev"], [("dev", [])], some 0⟩, some PyErr.indexError) ∧
     (hasKey [("time", 1)] "time" = false →
        insert_readings ⟨[⟨0, 0, Option.none⟩], 1, ["dev"], [("dev", [])], some 0⟩ "dev"
            ([("time", 1)] :: [[("value", 2)]]) =
          (⟨[⟨0, 0, Option.none⟩], 1, ["dev"], [("dev", [])], some 0⟩,
           some (PyErr.valueError "Sensor readings must have `time` field."))) ∧
     (hasKey [("time", 1)] "time" = true →
        (["dev"] : List String).contains "dev" = false →
        insert_readings ⟨[⟨0, 0, Option.none⟩], 1, ["dev"], [("dev", [])], some 0⟩ "dev"
            ([("time", 1)] :: [[("value", 2)]]) =
          (⟨[⟨0, 0, Option.none⟩], 1, ["dev"], [("dev", [])], some 0⟩,
           some (PyErr.valueError ("Device " ++ "dev" ++ " not registered.")))) ∧
     (hasKey [("time", 1)] "time" = true →
        (["dev"] : List String).contains "dev" = true →
        insert_readings ⟨[⟨0, 0, Option.none⟩], 1, ["dev"], [("dev", [])], some 0⟩ "dev"
            ([("time", 1)] :: [[("value", 2)]]) =
          (insert_many
             (create_table ⟨[⟨0, 0, Option.none⟩], 1, ["dev"], [("dev", [])], some 0⟩ "dev") "dev"
             (([("time", 1)] :: [[("value", 2)]]).map
               (fun item => setKey item "session_id" (Int.ofNat 0))),
           Option.none))) :=
  ⟨rfl,
   c10_insert_readings_guards ⟨[⟨0, 0, Option.none⟩], 1, ["dev"], [("dev", [])], some 0⟩
     "dev" [("time", 1)] [[("value", 2)]] 0 rfl⟩

/-- C9: the registry operations are idempotent: registering an
already-registered queue changes neither the set nor the label map,
unregistering an absent queue changes nothing and raises nothing, and
both operations are idempotent under composition (for registry states
with a duplicate-free subscriber set, as every Python set is). -/
theorem c9_registry_idempotent (r : Registry) (q : Nat) (nm : String)
    (hnd : r.subscribers.Nodup) :
    (q ∈ r.subscribers → register_subscriber r q nm = r) ∧
    (q ∉ r.subscribers → unsubscribe r q = r) ∧
    register_subscriber (register_subscriber r q nm) q nm = register_subscriber r q nm ∧
    unsubscribe (unsubscribe r q) q = unsubscribe r q := by
  refine ⟨register_subscriber_of_mem r q nm, unsubscribe_of_not_mem r q, ?_, ?_⟩
  · exact register_subscriber_of_mem _ q nm (mem_register_subscriber_self r q nm)
  · exact unsubscribe_of_not_mem _ q (not_mem_unsubscribe_self r q hnd)

/-- Witness for C9 at a concrete registry state. -/
theorem c9_registry_idempotent_witness :
    ((⟨[1, 2], [(1, "a"), (2, "b")]⟩ : Registry).subscribers.Nodup) ∧
    ((1 ∈ (⟨[1, 2], [(1, "a"), (2, "b")]⟩ : Registry).subscribers →
        register_subscriber ⟨[1, 2], [(1, "a"), (2, "b")]⟩ 1 "c" = ⟨[1, 2], [(1, "a"), (2, "b")]⟩) ∧
     (1 ∉ (⟨[1, 2], [(1, "a"), (2, "b")]⟩ : Registry).subscribers →
        unsubscribe ⟨[1, 2], [(1, "a"), (2, "b")]⟩ 1 = ⟨[1, 2], [(1, "a"), (2, "b")]⟩) ∧
     register_subscriber (register_subscriber ⟨[1, 2], [(1, "a"), (2, "b")]⟩ 1 "c") 1 "c" =
        register_subscriber ⟨[1, 2], [(1, "a"), (2, "b")]⟩ 1 "c" ∧
     unsubscribe (unsubscribe ⟨[1, 2], [(1, "a"), (2, "b")]⟩ 1) 1 =
        unsubscribe ⟨[1, 2], [(1, "a"), (2, "b")]⟩ 1) :=
  ⟨by decide, c9_registry_idempotent ⟨[1, 2], [(1, "a"), (2, "b")]⟩ 1 "c" (by decide)⟩

end Brego
